import Mathlib

/-!
Shallow embedding of the expense record validation and aggregation engine
of src/expense_tracker.py, together with proofs about the claims made in
the natural-language specification.

Conventions of the embedding:
* Python strings are Lean strings; string operations that the source uses
  (truthiness, len, isdigit, strip, lexicographic comparison, slicing) are
  embedded as explicit functions on the underlying character list.
* Python floats carrying monetary amounts are embedded as rationals.
* The wall clock (datetime.now().isoformat()) is passed explicitly as a
  string parameter named now.
* The storage collaborator (JSONRepository) is embedded by an oracle
  Boolean saveOk saying whether a save call succeeds, and each operation
  records the list of save calls it issued, so that claims about save
  attempts and failures can be stated.
-/

namespace ExpenseTracker

/-! ### Embedding of the Python string primitives used by the source -/

/-- Embedding of Python str.strip(): drop whitespace from both ends. -/
def pyStrip (s : String) : String :=
  String.mk (((s.data.dropWhile Char.isWhitespace).reverse.dropWhile Char.isWhitespace).reverse)

/-- Embedding of Python lexicographic less-or-equal on strings (code-point
order), used by the chained comparison in filter_by_date_range. -/
def pyListLe : List Char → List Char → Bool
  | [], _ => true
  | _ :: _, [] => false
  | a :: as, b :: bs =>
    if a.toNat < b.toNat then true
    else if a.toNat = b.toNat then pyListLe as bs
    else false

/-- Python s1 <= s2 on strings. -/
def pyStrLe (a b : String) : Bool := pyListLe a.data b.data

/-- Embedding of Python int() applied to a string of decimal digits. -/
def toNatDigits (l : List Char) : Nat :=
  l.foldl (fun n c => 10 * n + (c.toNat - 48)) 0

/-! ### Data model: the Expense record (class Expense) -/

/-- An expense record: the five fields set by Expense.__init__. -/
structure Expense where
  date : String
  category : String
  description : String
  amount : ℚ
  created_at : String
deriving DecidableEq, Repr

/-- The distinct validation rejection causes, one per raise site of
ValidationError in Expense._validate_inputs (the spec calls this
RejectionReason).  invalidAmount corresponds to the non-numeric-amount
raise site, which cannot fire in this embedding because amounts are
already numbers. -/
inductive RejectionReason where
  | malformedDate
  | dateOutOfRange
  | unknownCategory
  | emptyDescription
  | descriptionTooLong
  | invalidAmount
  | nonPositiveAmount
  | amountTooLarge
deriving DecidableEq, Repr

/-- The valid category labels, [cat.value for cat in ExpenseCategory]. -/
def validCategories : List String :=
  ["Food", "Travel", "Shopping", "Entertainment", "Utilities", "Health", "Education", "Other"]

/-- Condition of the first date check:
not date or len(date) != 8 or not date.isdigit(). -/
def dateFormatBad (d : String) : Bool :=
  d.data.isEmpty || decide (d.length ≠ 8) || !(d.data.all Char.isDigit)

/-- day = int(date[0:2]). -/
def dateDay (d : String) : Nat := toNatDigits (d.data.take 2)

/-- month = int(date[2:4]). -/
def dateMonth (d : String) : Nat := toNatDigits ((d.data.drop 2).take 2)

/-- year = int(date[4:8]). -/
def dateYear (d : String) : Nat := toNatDigits ((d.data.drop 4).take 4)

/-- Condition 1 <= day <= 31 and 1 <= month <= 12 and 1900 <= year <= 2100. -/
def dateRangeOk (d : String) : Bool :=
  decide (1 ≤ dateDay d) && decide (dateDay d ≤ 31) &&
  decide (1 ≤ dateMonth d) && decide (dateMonth d ≤ 12) &&
  decide (1900 ≤ dateYear d) && decide (dateYear d ≤ 2100)

/-- Condition category in valid_categories. -/
def categoryOk (c : String) : Bool := validCategories.contains c

/-- Condition not description or len(description.strip()) == 0. -/
def descEmpty (s : String) : Bool :=
  s.data.isEmpty || decide ((pyStrip s).length = 0)

/-- Condition len(description) > 100 (the raw, untrimmed length). -/
def descTooLong (s : String) : Bool := decide (100 < s.length)

/-- Embedding of Expense._validate_inputs: the checks in source order,
short-circuiting at the first failing one. -/
def validateInputs (date category description : String) (amount : ℚ) :
    Except RejectionReason Unit :=
  if dateFormatBad date then .error .malformedDate
  else if !dateRangeOk date then .error .dateOutOfRange
  else if !categoryOk category then .error .unknownCategory
  else if descEmpty description then .error .emptyDescription
  else if descTooLong description then .error .descriptionTooLong
  else if decide (amount ≤ 0) then .error .nonPositiveAmount
  else if decide (1000000 < amount) then .error .amountTooLarge
  else .ok ()

/-- Embedding of Expense.__init__: validate, then store the raw inputs and
stamp created_at with the current time. -/
def mkExpense (now date category description : String) (amount : ℚ) :
    Except RejectionReason Expense :=
  match validateInputs date category description amount with
  | .error r => .error r
  | .ok _ => .ok ⟨date, category, description, amount, now⟩

/-! ### Storage format (to_dict / from_dict / JSONRepository) -/

/-- One flat stored record: the five keys written by Expense.to_dict. -/
structure StoredRecord where
  date : String
  category : String
  description : String
  amount : ℚ
  created_at : String
deriving DecidableEq, Repr

/-- Embedding of Expense.to_dict. -/
def to_dict (e : Expense) : StoredRecord :=
  ⟨e.date, e.category, e.description, e.amount, e.created_at⟩

/-- Embedding of Expense.from_dict: rebuilds through Expense.__init__ from
the four user fields; the stored created_at key is not passed through. -/
def from_dict (now : String) (r : StoredRecord) : Except RejectionReason Expense :=
  mkExpense now r.date r.category r.description r.amount

/-- Embedding of JSONRepository.load applied to already-parsed JSON items:
builds each Expense via from_dict in order; any exception is converted to a
DataPersistenceError (modelled as the error of the Except). -/
def loadExpenses (now : String) : List StoredRecord → Except Unit (List Expense)
  | [] => .ok []
  | r :: rs =>
    match from_dict now r with
    | .error _ => .error ()
    | .ok e =>
      match loadExpenses now rs with
      | .error _ => .error ()
      | .ok es => .ok (e :: es)

/-! ### The ledger (class ExpenseManager) -/

/-- The kind of caller-facing message an operation returns, one constructor
per return-site message of add_expense and delete_expense. -/
inductive OpMsg where
  | expenseAdded
  | validationFailed (r : RejectionReason)
  | saveFailed
  | expenseDeleted
  | invalidIndexMsg
  | deleteFailed
deriving DecidableEq, Repr

/-- Result of a mutating ledger operation: the in-memory sequence after the
call, the returned success flag and message kind, and the arguments of the
save calls issued to the repository during the call. -/
structure OpResult where
  expenses : List Expense
  success : Bool
  msg : OpMsg
  saveCalls : List (List Expense)
deriving DecidableEq, Repr

/-- Embedding of ExpenseManager.add_expense.  saveOk is the oracle for
whether repository.save succeeds; the append happens before the save and is
not undone when the save raises DataPersistenceError. -/
def add_expense (now : String) (saveOk : Bool) (st : List Expense)
    (date category description : String) (amount : ℚ) : OpResult :=
  match mkExpense now date category description amount with
  | .error r => ⟨st, false, .validationFailed r, []⟩
  | .ok e =>
    let st' := st ++ [e]
    if saveOk then ⟨st', true, .expenseAdded, [st']⟩
    else ⟨st', false, .saveFailed, [st']⟩

/-- Embedding of ExpenseManager.delete_expense: bounds check
0 <= index < len(expenses); in bounds, pop then save, with no rollback of
the pop when the save fails; out of bounds, return the invalid-index
message without touching the repository. -/
def delete_expense (saveOk : Bool) (st : List Expense) (index : ℤ) : OpResult :=
  if 0 ≤ index ∧ index < (st.length : ℤ) then
    let st' := st.eraseIdx index.toNat
    if saveOk then ⟨st', true, .expenseDeleted, [st']⟩
    else ⟨st', false, .deleteFailed, [st']⟩
  else ⟨st, false, .invalidIndexMsg, []⟩

/-- Embedding of ExpenseManager._load_expenses composed with construction:
the initial in-memory sequence is the loaded list, or empty when the file
is corrupt (load raises) or some stored record fails validation. -/
def initExpenses (now : String) (file : Except Unit (List StoredRecord)) : List Expense :=
  match file with
  | .error _ => []
  | .ok data =>
    match loadExpenses now data with
    | .error _ => []
    | .ok es => es

/-- One mutating operation invoked on the manager, with its oracle inputs. -/
inductive LedgerOp where
  | addOp (now date category description : String) (amount : ℚ) (saveOk : Bool)
  | deleteOp (index : ℤ) (saveOk : Bool)

/-- The in-memory sequence after one operation. -/
def applyOp (st : List Expense) : LedgerOp → List Expense
  | .addOp now d c s a ok => (add_expense now ok st d c s a).expenses
  | .deleteOp i ok => (delete_expense ok st i).expenses

/-- The in-memory sequence after a list of operations, run left to right. -/
def runOps (st : List Expense) : List LedgerOp → List Expense
  | [] => st
  | op :: ops => runOps (applyOp st op) ops

/-! ### Aggregation and filtering -/

/-- Embedding of ExpenseManager.get_total_spending:
sum(expense.amount for expense in self.expenses), a left fold from 0. -/
def get_total_spending (st : List Expense) : ℚ :=
  st.foldl (fun acc e => acc + e.amount) 0

/-- Embedding of ExpenseManager.get_average_spending. -/
def get_average_spending (st : List Expense) : ℚ :=
  if st.isEmpty then 0 else get_total_spending st / (st.length : ℚ)

/-- Embedding of ExpenseManager.filter_by_category. -/
def filter_by_category (st : List Expense) (category : String) : List Expense :=
  st.filter (fun e => e.category == category)

/-- Embedding of ExpenseManager.filter_by_date_range: the chained Python
comparison start_date <= exp.date <= end_date. -/
def filter_by_date_range (st : List Expense) (start_date end_date : String) : List Expense :=
  st.filter (fun e => pyStrLe start_date e.date && pyStrLe e.date end_date)

/-- Embedding of Expense.__eq__: equality on date, category and amount
only. -/
def expenseEq (a b : Expense) : Bool :=
  a.date == b.date && a.category == b.category && a.amount == b.amount

/-- Python list equality of two ledgers under Expense.__eq__. -/
def expListEq : List Expense → List Expense → Bool
  | [], [] => true
  | a :: as, b :: bs => expenseEq a b && expListEq as bs
  | _, _ => false

/-- The record invariant stated by §3 of the specification: an 8-digit
date whose parsed day, month and year are in range, a category from the
fixed set, a trimmed description length in [1,100], and an amount in
(0, 1000000]. -/
def RecordInvariant (e : Expense) : Prop :=
  e.date.length = 8 ∧ (∀ ch ∈ e.date.data, ch.isDigit = true) ∧
  1 ≤ dateDay e.date ∧ dateDay e.date ≤ 31 ∧
  1 ≤ dateMonth e.date ∧ dateMonth e.date ≤ 12 ∧
  1900 ≤ dateYear e.date ∧ dateYear e.date ≤ 2100 ∧
  e.category ∈ validCategories ∧
  1 ≤ (pyStrip e.description).length ∧ (pyStrip e.description).length ≤ 100 ∧
  0 < e.amount ∧ e.amount ≤ 1000000

instance (e : Expense) : Decidable (RecordInvariant e) := by
  unfold RecordInvariant; infer_instance

/-! ### Supporting lemmas -/

theorem length_dropWhile_le {α : Type} (p : α → Bool) (l : List α) :
    (l.dropWhile p).length ≤ l.length := by
  induction l with
  | nil => simp
  | cons a t ih =>
    by_cases h : p a
    · simp only [List.dropWhile_cons, h, if_true]
      exact Nat.le_trans ih (Nat.le_succ _)
    · simp [List.dropWhile_cons, h]

theorem pyStrip_length_le (s : String) : (pyStrip s).length ≤ s.length := by
  show (((s.data.dropWhile _).reverse.dropWhile _).reverse).length ≤ s.data.length
  rw [List.length_reverse]
  calc ((s.data.dropWhile Char.isWhitespace).reverse.dropWhile Char.isWhitespace).length
      ≤ (s.data.dropWhile Char.isWhitespace).reverse.length := length_dropWhile_le _ _
    _ = (s.data.dropWhile Char.isWhitespace).length := List.length_reverse _
    _ ≤ s.data.length := length_dropWhile_le _ _

theorem eraseIdx_concat {α : Type} (l : List α) (x : α) :
    (l ++ [x]).eraseIdx l.length = l := by
  induction l with
  | nil => rfl
  | cons a t ih => simp [List.eraseIdx, ih]

theorem dateFormatBad_false (d : String) (h : dateFormatBad d = false) :
    d.length = 8 ∧ ∀ ch ∈ d.data, ch.isDigit = true := by
  simp only [dateFormatBad, Bool.or_eq_false_iff, List.isEmpty_iff,
    decide_eq_false_iff_not, ne_eq, not_not, Bool.not_eq_false', List.all_eq_true] at h
  exact ⟨h.1.2, h.2⟩

theorem dateRangeOk_true (d : String) (h : dateRangeOk d = true) :
    1 ≤ dateDay d ∧ dateDay d ≤ 31 ∧ 1 ≤ dateMonth d ∧ dateMonth d ≤ 12 ∧
    1900 ≤ dateYear d ∧ dateYear d ≤ 2100 := by
  simp only [dateRangeOk, Bool.and_eq_true, decide_eq_true_eq] at h
  exact ⟨h.1.1.1.1.1, h.1.1.1.1.2, h.1.1.1.2, h.1.1.2, h.1.2, h.2⟩

theorem categoryOk_true (c : String) (h : categoryOk c = true) : c ∈ validCategories :=
  List.elem_iff.mp h

theorem descEmpty_false (s : String) (h : descEmpty s = false) :
    1 ≤ (pyStrip s).length := by
  simp only [descEmpty, Bool.or_eq_false_iff, decide_eq_false_iff_not] at h
  omega

theorem descTooLong_false (s : String) (h : descTooLong s = false) :
    (pyStrip s).length ≤ 100 := by
  simp only [descTooLong, decide_eq_false_iff_not, not_lt] at h
  exact Nat.le_trans (pyStrip_length_le s) h

theorem validateInputs_ok_conditions (d c s : String) (a : ℚ)
    (h : validateInputs d c s a = .ok ()) :
    dateFormatBad d = false ∧ dateRangeOk d = true ∧ categoryOk c = true ∧
    descEmpty s = false ∧ descTooLong s = false ∧ 0 < a ∧ a ≤ 1000000 := by
  by_cases h1 : dateFormatBad d = true
  · simp [validateInputs, h1] at h
  by_cases h2 : dateRangeOk d = true
  case neg => simp [validateInputs, h1, h2] at h
  by_cases h3 : categoryOk c = true
  case neg => simp [validateInputs, h1, h2, h3] at h
  by_cases h4 : descEmpty s = true
  · simp [validateInputs, h1, h2, h3, h4] at h
  by_cases h5 : descTooLong s = true
  · simp [validateInputs, h1, h2, h3, h4, h5] at h
  by_cases h6 : a ≤ 0
  · simp [validateInputs, h1, h2, h3, h4, h5, h6] at h
  by_cases h7 : 1000000 < a
  · simp [validateInputs, h1, h2, h3, h4, h5, h6, h7] at h
  exact ⟨Bool.eq_false_iff.mpr h1, h2, h3, Bool.eq_false_iff.mpr h4,
    Bool.eq_false_iff.mpr h5, lt_of_not_le h6, le_of_not_lt h7⟩

theorem mkExpense_ok_fields (now d c s : String) (a : ℚ) (e : Expense)
    (h : mkExpense now d c s a = .ok e) :
    validateInputs d c s a = .ok () ∧ e = ⟨d, c, s, a, now⟩ := by
  unfold mkExpense at h
  revert h
  match hv : validateInputs d c s a with
  | .error r => intro h; cases h
  | .ok u => cases u; intro h; cases h; exact ⟨rfl, rfl⟩

theorem mkExpense_ok_invariant (now d c s : String) (a : ℚ) (e : Expense)
    (h : mkExpense now d c s a = .ok e) : RecordInvariant e := by
  obtain ⟨hv, he⟩ := mkExpense_ok_fields now d c s a e h
  obtain ⟨h1, h2, h3, h4, h5, h6, h7⟩ := validateInputs_ok_conditions d c s a hv
  obtain ⟨hlen, hdig⟩ := dateFormatBad_false d h1
  obtain ⟨r1, r2, r3, r4, r5, r6⟩ := dateRangeOk_true d h2
  subst he
  exact ⟨hlen, hdig, r1, r2, r3, r4, r5, r6, categoryOk_true c h3,
    descEmpty_false s h4, descTooLong_false s h5, h6, h7⟩

theorem loadExpenses_ok_invariant (now : String) (data : List StoredRecord)
    (es : List Expense) (h : loadExpenses now data = .ok es) :
    ∀ e ∈ es, RecordInvariant e := by
  induction data generalizing es with
  | nil => cases h; intro e he; cases he
  | cons r rs ih =>
    revert h
    unfold loadExpenses
    match hfd : from_dict now r with
    | .error _ => intro h; cases h
    | .ok e0 =>
      match hrest : loadExpenses now rs with
      | .error _ => intro h; cases h
      | .ok es0 =>
        intro h
        cases h
        intro e he
        rcases List.mem_cons.mp he with h | h
        · subst h; exact mkExpense_ok_invariant _ _ _ _ _ _ hfd
        · exact ih es0 hrest e h

theorem initExpenses_invariant (now : String) (file : Except Unit (List StoredRecord)) :
    ∀ e ∈ initExpenses now file, RecordInvariant e := by
  unfold initExpenses
  split
  · intro e he; cases he
  · split
    · intro e he; cases he
    · next es hl => exact loadExpenses_ok_invariant now _ es hl

theorem applyOp_invariant (st : List Expense) (op : LedgerOp)
    (h : ∀ e ∈ st, RecordInvariant e) : ∀ e ∈ applyOp st op, RecordInvariant e := by
  match op with
  | .addOp now d c s a ok =>
    show ∀ e ∈ (add_expense now ok st d c s a).expenses, RecordInvariant e
    unfold add_expense
    match hmk : mkExpense now d c s a with
    | .error r => exact h
    | .ok e0 =>
      have hmem : ∀ e ∈ st ++ [e0], RecordInvariant e := by
        intro e he
        rcases List.mem_append.mp he with hm | hm
        · exact h e hm
        · rcases List.mem_singleton.mp hm with rfl
          exact mkExpense_ok_invariant _ _ _ _ _ _ hmk
      by_cases hok : ok = true
      · simp only [hok, if_true]; exact hmem
      · simp only [Bool.eq_false_iff.mpr hok, if_false]; exact hmem
  | .deleteOp i ok =>
    show ∀ e ∈ (delete_expense ok st i).expenses, RecordInvariant e
    unfold delete_expense
    by_cases hb : 0 ≤ i ∧ i < (st.length : ℤ)
    · simp only [hb, if_true]
      have herase : ∀ e ∈ st.eraseIdx i.toNat, RecordInvariant e :=
        fun e he => h e (List.eraseIdx_subset st i.toNat he)
      by_cases hok : ok = true
      · simp only [hok, if_true]; exact herase
      · simp only [Bool.eq_false_iff.mpr hok, if_false]; exact herase
    · simp only [hb, if_false]; exact h

theorem dateFormatBad_eq_false (d : String) (h1 : d.length = 8)
    (h2 : ∀ ch ∈ d.data, ch.isDigit = true) : dateFormatBad d = false := by
  have hne : d.data.isEmpty = false := by
    cases hd : d.data with
    | nil =>
      exfalso
      have h0 : d.data.length = 0 := by rw [hd]; rfl
      have h8 : d.data.length = 8 := h1
      omega
    | cons x xs => rfl
  simp only [dateFormatBad, hne, h1, List.all_eq_true, Bool.or_eq_false_iff]
  exact ⟨⟨trivial, by simp⟩, by simpa using h2⟩

theorem dateRangeOk_eq_true (d : String)
    (h3 : 1 ≤ dateDay d) (h4 : dateDay d ≤ 31)
    (h5 : 1 ≤ dateMonth d) (h6 : dateMonth d ≤ 12)
    (h7 : 1900 ≤ dateYear d) (h8 : dateYear d ≤ 2100) : dateRangeOk d = true := by
  simp [dateRangeOk, h3, h4, h5, h6, h7, h8]

theorem categoryOk_eq_true (c : String) (h : c ∈ validCategories) : categoryOk c = true :=
  List.elem_iff.mpr h

theorem descEmpty_eq_false (s : String) (h : 1 ≤ (pyStrip s).length) :
    descEmpty s = false := by
  have h1s : 1 ≤ s.length := le_trans h (pyStrip_length_le s)
  have hne : s.data.isEmpty = false := by
    cases hd : s.data with
    | nil =>
      exfalso
      have h0 : s.data.length = 0 := by rw [hd]; rfl
      have hsl : s.length = s.data.length := rfl
      omega
    | cons x xs => rfl
  simp [descEmpty, hne]
  omega

theorem descTooLong_eq_false (s : String) (h : s.length ≤ 100) :
    descTooLong s = false := by
  simp [descTooLong]
  omega

theorem runOps_invariant (ops : List LedgerOp) (st : List Expense)
    (h : ∀ e ∈ st, RecordInvariant e) : ∀ e ∈ runOps st ops, RecordInvariant e := by
  induction ops generalizing st with
  | nil => exact h
  | cons op rest ih => exact ih (applyOp st op) (applyOp_invariant st op h)

/-! ### Claim theorems -/

/-- C1: when validation succeeds and the subsequent save fails, the
in-memory sequence equals the old sequence with the new record appended
(so the appended record is still present, the append is not rolled back),
the operation reports failure with the save-error message, and the save
of the entire appended sequence was attempted.  Likewise, an in-bounds
delete whose save fails keeps the removal in memory and reports the
delete-save failure. -/
theorem add_delete_no_rollback_on_save_failure
    (now d c s : String) (a : ℚ) (st : List Expense) (e : Expense) (i : ℤ) :
    (mkExpense now d c s a = .ok e →
      (add_expense now false st d c s a).expenses = st ++ [e] ∧
      e ∈ (add_expense now false st d c s a).expenses ∧
      (add_expense now false st d c s a).success = false ∧
      (add_expense now false st d c s a).msg = .saveFailed ∧
      (add_expense now false st d c s a).saveCalls = [st ++ [e]]) ∧
    (0 ≤ i → i < (st.length : ℤ) →
      (delete_expense false st i).expenses = st.eraseIdx i.toNat ∧
      (delete_expense false st i).success = false ∧
      (delete_expense false st i).msg = .deleteFailed ∧
      (delete_expense false st i).saveCalls = [st.eraseIdx i.toNat]) := by
  constructor
  · intro h
    simp [add_expense, h]
  · intro h1 h2
    have hb : 0 ≤ i ∧ i < (st.length : ℤ) := ⟨h1, h2⟩
    simp [delete_expense, hb]

theorem add_delete_no_rollback_on_save_failure_witness :
    (add_expense "t" false [] "01012024" "Food" "x" 5).expenses
        = [⟨"01012024", "Food", "x", 5, "t"⟩] ∧
    (delete_expense false [⟨"01012024", "Food", "x", 5, "t"⟩] 0).expenses = [] := by
  constructor
  · exact ((add_delete_no_rollback_on_save_failure "t" "01012024" "Food" "x" 5 []
      ⟨"01012024", "Food", "x", 5, "t"⟩ 0).1 rfl).1
  · have h := (add_delete_no_rollback_on_save_failure "t" "01012024" "Food" "x" 5
      [⟨"01012024", "Food", "x", 5, "t"⟩] ⟨"01012024", "Food", "x", 5, "t"⟩ 0).2
      (by decide) (by decide)
    exact h.1.trans rfl

/-- C2 counterexample: the claim asserts that
filterByDateRange("01012024","31012024") excludes every record dated
"01022024", but lexicographically "01012024" is below "01022024" is below
"31012024", so such a record is included. -/
theorem filter_includes_01022024 :
    filter_by_date_range [⟨"01022024", "Food", "x", 5, "t"⟩] "01012024" "31012024"
      = [⟨"01022024", "Food", "x", 5, "t"⟩] := by decide

/-- C2 (amended): filter_by_date_range keeps a record iff
start <= date <= end under inclusive lexicographic string comparison; with
bounds "01012024" and "31012024" a record dated "15012024" or "01022024"
is inside the range and one dated "31122023" is outside it. -/
theorem filter_by_date_range_lexicographic (st : List Expense) (s e : String) (x : Expense) :
    (x ∈ filter_by_date_range st s e ↔
      x ∈ st ∧ pyStrLe s x.date = true ∧ pyStrLe x.date e = true) ∧
    (pyStrLe "01012024" "15012024" && pyStrLe "15012024" "31012024") = true ∧
    (pyStrLe "01012024" "01022024" && pyStrLe "01022024" "31012024") = true ∧
    (pyStrLe "01012024" "31122023" && pyStrLe "31122023" "31012024") = false := by
  refine ⟨?_, by decide, by decide, by decide⟩
  simp [filter_by_date_range, List.mem_filter, Bool.and_eq_true]

theorem filter_by_date_range_lexicographic_witness :
    (⟨"15012024", "Food", "x", 5, "t"⟩ : Expense)
      ∈ filter_by_date_range [⟨"15012024", "Food", "x", 5, "t"⟩] "01012024" "31012024" :=
  ((filter_by_date_range_lexicographic [⟨"15012024", "Food", "x", 5, "t"⟩]
    "01012024" "31012024" ⟨"15012024", "Food", "x", 5, "t"⟩).1).mpr (by decide)

/-- C3 counterexample: on the one-record ledger below, a valid add (save
succeeding) followed by delete(0) (save succeeding) does not return the
ledger to its pre-add state, even under the content equality of
Expense.__eq__, because add appends at the end while delete(0) removes the
oldest record. -/
theorem add_delete0_does_not_restore :
    expListEq
      (delete_expense true
        (add_expense "t1" true [⟨"01012024", "Food", "a", 5, "t0"⟩]
          "02012024" "Travel" "b" 7).expenses 0).expenses
      [⟨"01012024", "Food", "a", 5, "t0"⟩] = false := by decide

/-- C3 (amended): a valid add with a successful save, followed by a delete
(also with a successful save) at the index of the appended record, which
is the pre-add length, returns the in-memory sequence exactly to its
pre-add state; delete(0) achieves this only when the ledger was empty
before the add. -/
theorem add_then_delete_appended_restores (now d c s : String) (a : ℚ)
    (st : List Expense) (e : Expense) (h : mkExpense now d c s a = .ok e) :
    (delete_expense true (add_expense now true st d c s a).expenses
      (st.length : ℤ)).expenses = st := by
  have hadd : (add_expense now true st d c s a).expenses = st ++ [e] := by
    simp [add_expense, h]
  rw [hadd]
  have hb : 0 ≤ (st.length : ℤ) ∧ (st.length : ℤ) < (((st ++ [e]).length : ℕ) : ℤ) := by
    simp
  rw [delete_expense, if_pos hb]
  simp [Int.toNat_natCast, eraseIdx_concat]

theorem add_then_delete_appended_restores_witness :
    (delete_expense true
      (add_expense "t1" true [⟨"01012024", "Food", "a", 5, "t0"⟩]
        "02012024" "Travel" "b" 7).expenses 1).expenses
      = [⟨"01012024", "Food", "a", 5, "t0"⟩] :=
  add_then_delete_appended_restores "t1" "02012024" "Travel" "b" 7
    [⟨"01012024", "Food", "a", 5, "t0"⟩] ⟨"02012024", "Travel", "b", 7, "t1"⟩ rfl

/-- C4 counterexample: serializing one record to the storage format and
loading it back does not reproduce it field-for-field, because from_dict
rebuilds through the constructor, which stamps created_at with the load
time; loading the record below at a later time yields a record with a
different created_at. -/
theorem roundtrip_loses_created_at :
    (loadExpenses "2024-06-01T00:00:00"
        [to_dict ⟨"01012024", "Food", "x", 5, "2024-01-01T00:00:00"⟩]).toOption
      = some [⟨"01012024", "Food", "x", 5, "2024-06-01T00:00:00"⟩] ∧
    loadExpenses "2024-06-01T00:00:00"
        [to_dict ⟨"01012024", "Food", "x", 5, "2024-01-01T00:00:00"⟩]
      ≠ .ok [⟨"01012024", "Food", "x", 5, "2024-01-01T00:00:00"⟩] := by
  constructor
  · decide
  · intro h
    have h2 := congrArg Except.toOption h
    revert h2
    decide

/-- C4 (amended): serializing a sequence of valid records to the storage
format and loading it back reproduces the date, category, description and
amount of every record field-for-field and in order, but each created_at
is re-assigned to the load time instead of the stored value. -/
theorem roundtrip_restores_user_fields (now : String) (es : List Expense)
    (h : ∀ e ∈ es, validateInputs e.date e.category e.description e.amount = .ok ()) :
    loadExpenses now (es.map to_dict)
      = .ok (es.map (fun e => { e with created_at := now })) := by
  induction es with
  | nil => rfl
  | cons e rest ih =>
    have he : validateInputs e.date e.category e.description e.amount = .ok () :=
      h e (List.mem_cons_self e rest)
    have hrest := ih (fun x hx => h x (List.mem_cons_of_mem e hx))
    have hfd : from_dict now (to_dict e)
        = .ok ⟨e.date, e.category, e.description, e.amount, now⟩ := by
      simp [from_dict, to_dict, mkExpense, he]
    simp only [List.map_cons, loadExpenses, hfd, hrest]

theorem roundtrip_restores_user_fields_witness :
    loadExpenses "B" (List.map to_dict [⟨"01012024", "Food", "x", 5, "A"⟩])
      = .ok [⟨"01012024", "Food", "x", 5, "B"⟩] :=
  roundtrip_restores_user_fields "B" [⟨"01012024", "Food", "x", 5, "A"⟩]
    (by intro e he; rcases List.mem_singleton.mp he with rfl; rfl)

/-- C5 counterexample: validation succeeds on the description " x " and
the produced record stores it untrimmed, so the record's description does
not equal the trimmed input; moreover an input whose trimmed description
length is within [1,100] but whose raw length is 101 is rejected, so
validate does not succeed on every input satisfying the §3 invariants. -/
theorem validate_untrimmed_and_raw_length :
    (mkExpense "t" "01012024" "Food" " x " 5).toOption
        = some ⟨"01012024", "Food", " x ", 5, "t"⟩ ∧
    (" x " : String) ≠ pyStrip " x " ∧
    (validateInputs "01012024" "Food"
        (String.mk (List.replicate 100 'a') ++ " ") 5).toOption = none ∧
    1 ≤ (pyStrip (String.mk (List.replicate 100 'a') ++ " ")).length ∧
    (pyStrip (String.mk (List.replicate 100 'a') ++ " ")).length ≤ 100 := by
  refine ⟨by decide, by decide, by decide, by decide, by decide⟩

/-- C5 (amended): for all inputs satisfying the §3 invariants whose raw
description length is also at most 100, validation succeeds and the
produced record's date, category, description and amount equal the inputs
exactly, the description being stored raw (untrimmed). -/
theorem validate_accepts_and_stores_raw (now d c s : String) (a : ℚ)
    (h1 : d.length = 8) (h2 : ∀ ch ∈ d.data, ch.isDigit = true)
    (h3 : 1 ≤ dateDay d) (h4 : dateDay d ≤ 31)
    (h5 : 1 ≤ dateMonth d) (h6 : dateMonth d ≤ 12)
    (h7 : 1900 ≤ dateYear d) (h8 : dateYear d ≤ 2100)
    (h9 : c ∈ validCategories)
    (h10 : 1 ≤ (pyStrip s).length) (h11 : s.length ≤ 100)
    (h12 : 0 < a) (h13 : a ≤ 1000000) :
    mkExpense now d c s a = .ok ⟨d, c, s, a, now⟩ := by
  have hfb := dateFormatBad_eq_false d h1 h2
  have hro := dateRangeOk_eq_true d h3 h4 h5 h6 h7 h8
  have hco := categoryOk_eq_true c h9
  have hde := descEmpty_eq_false s h10
  have hdt := descTooLong_eq_false s h11
  have hnp : ¬(a ≤ 0) := not_le.mpr h12
  have hal : ¬(1000000 < a) := not_lt.mpr h13
  simp [mkExpense, validateInputs, hfb, hro, hco, hde, hdt, hnp, hal]

theorem validate_accepts_and_stores_raw_witness :
    mkExpense "t" "01012024" "Food" " x " 5 = .ok ⟨"01012024", "Food", " x ", 5, "t"⟩ :=
  validate_accepts_and_stores_raw "t" "01012024" "Food" " x " 5
    (by decide) (by decide) (by decide) (by decide) (by decide) (by decide)
    (by decide) (by decide) (by decide) (by decide) (by decide) (by decide) (by decide)

/-- C6 counterexample: the input below violates exactly one §3 invariant,
the amount one (amount -5 is non-positive, and the date, category and
trimmed description length all satisfy their invariants), yet validate
rejects it with descriptionTooLong instead of nonPositiveAmount, because
the raw (untrimmed) description length 101 trips the earlier length check. -/
theorem single_invariant_violation_not_specific :
    validateInputs "01012024" "Food" (String.mk (List.replicate 100 'a') ++ " ") (-5)
        = .error .descriptionTooLong ∧
    1 ≤ (pyStrip (String.mk (List.replicate 100 'a') ++ " ")).length ∧
    (pyStrip (String.mk (List.replicate 100 'a') ++ " ")).length ≤ 100 ∧
    ((-5 : ℚ) ≤ 0) ∧
    RejectionReason.descriptionTooLong ≠ RejectionReason.nonPositiveAmount := by
  refine ⟨rfl, by decide, by decide, by decide, by decide⟩

/-- C6 (amended): the checks run in the fixed order date-format,
date-range, category, empty-description, description-too-long (on the raw,
untrimmed length), non-positive-amount, amount-too-large, short-circuiting
on the first failure (the non-numeric-amount check cannot fire on an
already numeric amount); every input failing exactly one of these check
conditions, the others passing, is rejected with the specific
corresponding RejectionReason, and an input passing all checks is
accepted. -/
theorem validation_order_and_reasons (d c s : String) (a : ℚ) :
    (dateFormatBad d = true → validateInputs d c s a = .error .malformedDate) ∧
    (dateFormatBad d = false → dateRangeOk d = false →
      validateInputs d c s a = .error .dateOutOfRange) ∧
    (dateFormatBad d = false → dateRangeOk d = true → categoryOk c = false →
      validateInputs d c s a = .error .unknownCategory) ∧
    (dateFormatBad d = false → dateRangeOk d = true → categoryOk c = true →
      (pyStrip s).length = 0 → validateInputs d c s a = .error .emptyDescription) ∧
    (dateFormatBad d = false → dateRangeOk d = true → categoryOk c = true →
      1 ≤ (pyStrip s).length → 100 < s.length →
      validateInputs d c s a = .error .descriptionTooLong) ∧
    (dateFormatBad d = false → dateRangeOk d = true → categoryOk c = true →
      1 ≤ (pyStrip s).length → s.length ≤ 100 → a ≤ 0 →
      validateInputs d c s a = .error .nonPositiveAmount) ∧
    (dateFormatBad d = false → dateRangeOk d = true → categoryOk c = true →
      1 ≤ (pyStrip s).length → s.length ≤ 100 → 0 < a → 1000000 < a →
      validateInputs d c s a = .error .amountTooLarge) ∧
    (dateFormatBad d = false → dateRangeOk d = true → categoryOk c = true →
      1 ≤ (pyStrip s).length → s.length ≤ 100 → 0 < a → a ≤ 1000000 →
      validateInputs d c s a = .ok ()) := by
  refine ⟨?_, ?_, ?_, ?_, ?_, ?_, ?_, ?_⟩
  · intro h1
    simp [validateInputs, h1]
  · intro h1 h2
    simp [validateInputs, h1, h2]
  · intro h1 h2 h3
    simp [validateInputs, h1, h2, h3]
  · intro h1 h2 h3 h4
    have hde : descEmpty s = true := by simp [descEmpty, h4]
    simp [validateInputs, h1, h2, h3, hde]
  · intro h1 h2 h3 h4 h5
    have hde := descEmpty_eq_false s h4
    have hdt : descTooLong s = true := by simp [descTooLong, h5]
    simp [validateInputs, h1, h2, h3, hde, hdt]
  · intro h1 h2 h3 h4 h5 h6
    have hde := descEmpty_eq_false s h4
    have hdt := descTooLong_eq_false s h5
    simp [validateInputs, h1, h2, h3, hde, hdt, h6]
  · intro h1 h2 h3 h4 h5 h6 h7
    have hde := descEmpty_eq_false s h4
    have hdt := descTooLong_eq_false s h5
    have hnp : ¬(a ≤ 0) := not_le.mpr h6
    simp [validateInputs, h1, h2, h3, hde, hdt, hnp, h7]
  · intro h1 h2 h3 h4 h5 h6 h7
    have hde := descEmpty_eq_false s h4
    have hdt := descTooLong_eq_false s h5
    have hnp : ¬(a ≤ 0) := not_le.mpr h6
    have hal : ¬(1000000 < a) := not_lt.mpr h7
    simp [validateInputs, h1, h2, h3, hde, hdt, hnp, hal]

theorem validation_order_and_reasons_witness :
    validateInputs "32a" "Food" "x" 5 = .error .malformedDate ∧
    validateInputs "00012024" "Food" "x" 5 = .error .dateOutOfRange ∧
    validateInputs "01012024" "food" "x" 5 = .error .unknownCategory ∧
    validateInputs "01012024" "Food" "  " 5 = .error .emptyDescription ∧
    validateInputs "01012024" "Food" (String.mk (List.replicate 101 'a')) 5
      = .error .descriptionTooLong ∧
    validateInputs "01012024" "Food" "x" 0 = .error .nonPositiveAmount ∧
    validateInputs "01012024" "Food" "x" 1000001 = .error .amountTooLarge ∧
    validateInputs "01012024" "Food" "x" 5 = .ok () := by
  refine ⟨?_, ?_, ?_, ?_, ?_, ?_, ?_, ?_⟩
  · exact (validation_order_and_reasons "32a" "Food" "x" 5).1 (by decide)
  · exact (validation_order_and_reasons "00012024" "Food" "x" 5).2.1
      (by decide) (by decide)
  · exact (validation_order_and_reasons "01012024" "food" "x" 5).2.2.1
      (by decide) (by decide) (by decide)
  · exact (validation_order_and_reasons "01012024" "Food" "  " 5).2.2.2.1
      (by decide) (by decide) (by decide) (by decide)
  · exact (validation_order_and_reasons "01012024" "Food"
      (String.mk (List.replicate 101 'a')) 5).2.2.2.2.1
      (by decide) (by decide) (by decide) (by decide) (by decide)
  · exact (validation_order_and_reasons "01012024" "Food" "x" 0).2.2.2.2.2.1
      (by decide) (by decide) (by decide) (by decide) (by decide) (by decide)
  · exact (validation_order_and_reasons "01012024" "Food" "x" 1000001).2.2.2.2.2.2.1
      (by decide) (by decide) (by decide) (by decide) (by decide) (by decide) (by decide)
  · exact (validation_order_and_reasons "01012024" "Food" "x" 5).2.2.2.2.2.2.2
      (by decide) (by decide) (by decide) (by decide) (by decide) (by decide) (by decide)

/-- C7: after construction-time load (from any repository content) and any
sequence of add and delete operations (with any save outcomes), every
record in the in-memory ledger satisfies the §3 record invariant: an
8-digit date whose day, month and year are in range, a category from the
fixed set, a trimmed description length in [1,100], and an amount in
(0, 1000000]. -/
theorem ledger_records_always_valid (now : String)
    (file : Except Unit (List StoredRecord)) (ops : List LedgerOp)
    (e : Expense) (h : e ∈ runOps (initExpenses now file) ops) :
    RecordInvariant e :=
  runOps_invariant ops (initExpenses now file) (initExpenses_invariant now file) e h

theorem ledger_records_always_valid_witness :
    RecordInvariant ⟨"02012024", "Travel", "y", 7, "t1"⟩ :=
  ledger_records_always_valid "t0" (.ok [⟨"01012024", "Food", "x", 5, "A"⟩])
    [.addOp "t1" "02012024" "Travel" "y" 7 true]
    ⟨"02012024", "Travel", "y", 7, "t1"⟩ (by decide)

/-- C8: deleting at any index that is negative or at least the ledger
length returns the invalid-index failure, leaves the in-memory sequence
unchanged, and issues no save call. -/
theorem delete_out_of_bounds (saveOk : Bool) (st : List Expense) (i : ℤ)
    (h : i < 0 ∨ (st.length : ℤ) ≤ i) :
    delete_expense saveOk st i = ⟨st, false, .invalidIndexMsg, []⟩ := by
  have hb : ¬(0 ≤ i ∧ i < (st.length : ℤ)) := by omega
  simp [delete_expense, hb]

theorem delete_out_of_bounds_witness :
    delete_expense true [⟨"01012024", "Food", "x", 5, "t"⟩] (-1)
        = ⟨[⟨"01012024", "Food", "x", 5, "t"⟩], false, .invalidIndexMsg, []⟩ ∧
    delete_expense true [⟨"01012024", "Food", "x", 5, "t"⟩] 1
        = ⟨[⟨"01012024", "Food", "x", 5, "t"⟩], false, .invalidIndexMsg, []⟩ :=
  ⟨delete_out_of_bounds true [⟨"01012024", "Food", "x", 5, "t"⟩] (-1) (Or.inl (by decide)),
   delete_out_of_bounds true [⟨"01012024", "Food", "x", 5, "t"⟩] 1 (Or.inr (by decide))⟩

/-- C9: total spending is the sum of the amount fields and is 0 on the
empty ledger; average spending is 0 on the empty ledger and equals total
spending divided by the record count on a non-empty ledger. -/
theorem spending_aggregates (st : List Expense) :
    get_total_spending st = (st.map Expense.amount).sum ∧
    get_total_spending [] = 0 ∧
    get_average_spending [] = 0 ∧
    (st ≠ [] → get_average_spending st = get_total_spending st / (st.length : ℚ)) := by
  refine ⟨?_, rfl, rfl, ?_⟩
  · rw [List.sum_eq_foldl, List.foldl_map]
    rfl
  · intro h
    have hne : st.isEmpty = false := by
      cases st with
      | nil => exact absurd rfl h
      | cons x t => rfl
    simp [get_average_spending, hne]

theorem spending_aggregates_witness :
    get_average_spending
        [⟨"01012024", "Food", "a", 21/2, "t"⟩, ⟨"02012024", "Travel", "b", 20, "t"⟩,
         ⟨"03012024", "Food", "c", 21/4, "t"⟩]
      = get_total_spending
          [⟨"01012024", "Food", "a", 21/2, "t"⟩, ⟨"02012024", "Travel", "b", 20, "t"⟩,
           ⟨"03012024", "Food", "c", 21/4, "t"⟩]
        / (([⟨"01012024", "Food", "a", 21/2, "t"⟩, ⟨"02012024", "Travel", "b", 20, "t"⟩,
             ⟨"03012024", "Food", "c", 21/4, "t"⟩] : List Expense).length : ℚ) :=
  (spending_aggregates
    [⟨"01012024", "Food", "a", 21/2, "t"⟩, ⟨"02012024", "Travel", "b", 20, "t"⟩,
     ⟨"03012024", "Food", "c", 21/4, "t"⟩]).2.2.2 (by decide)

/-- C10: Expense.__eq__ compares exactly the date, category and amount
fields: two records are equal under it iff those three fields agree, so
records differing only in description or created_at compare equal. -/
theorem expense_eq_ignores_description_created_at (x y : Expense) :
    expenseEq x y = true ↔
      x.date = y.date ∧ x.category = y.category ∧ x.amount = y.amount := by
  simp [expenseEq, Bool.and_eq_true, and_assoc]

theorem expense_eq_ignores_description_created_at_witness :
    expenseEq ⟨"01012024", "Food", "lunch", 5, "t1"⟩
      ⟨"01012024", "Food", "dinner", 5, "t2"⟩ = true :=
  (expense_eq_ignores_description_created_at
    ⟨"01012024", "Food", "lunch", 5, "t1"⟩
    ⟨"01012024", "Food", "dinner", 5, "t2"⟩).mpr ⟨rfl, rfl, rfl⟩

end ExpenseTracker
